import Mathlib

/-!
Shallow embedding of the vApp reconciliation engine of
`vsphere/resource_vsphere_vapp.go` (the current revision of the file:
schema version 1, `constructVApp`-based resource functions).

Entity records are the Terraform schema maps of the `entity` set; the
diff step of `resourceVSphereVAppUpdate` (lines 1114-1146) computes the
set differences of the declared and previous entity sets and pairs
entries that share the (name, type) identity into modified entries,
copying the computed fields from the previous entry.
-/

namespace VSphereVApp

/-- One element of the `entity` schema set, as stored in Terraform state:
the declared attributes plus the computed fields `moid`, `folder_path`
and `resourcepool_path`. -/
structure EntityRec where
  name : String
  etype : String
  folder : String
  start_order : Int
  start_delay : Int
  stop_delay : Int
  start_action : String
  stop_action : String
  waiting_for_guest : Bool
  destroy_with_parent : Bool
  moid : String
  folder_path : String
  resourcepool_path : String
deriving DecidableEq, Repr

/-- Entity identity: the (name, type) pair the update diff matches on
(`addedEntity["name"] == removedEntity["name"] && addedEntity["type"] ==
removedEntity["type"]`). -/
def ident (e : EntityRec) : String × String := (e.name, e.etype)

/-- The match condition of the inner pairing loop of
`resourceVSphereVAppUpdate` (line 1131). -/
def identMatch (a r : EntityRec) : Bool :=
  a.name == r.name && a.etype == r.etype

/-- Lines 1135-1137: the added (declared) entry receives the computed
fields `moid`, `folder_path`, `resourcepool_path` of the previous entry. -/
def copyComputed (d p : EntityRec) : EntityRec :=
  { d with moid := p.moid, folder_path := p.folder_path,
           resourcepool_path := p.resourcepool_path }

/-- The ReconciliationDelta: added / removed / modified entity lists. -/
structure DiffResult where
  added : List EntityRec
  removed : List EntityRec
  modified : List EntityRec
deriving DecidableEq, Repr

/-- The pairing loop of `resourceVSphereVAppUpdate` (lines 1127-1142):
for each entry of the added set (snapshot), find the first entry of the
current removed set with the same (name, type); on a match remove both
from their sets and append the added entry, carrying the computed
fields of the removed entry, to the modified list. -/
def pairModified : List EntityRec → List EntityRec → DiffResult
  | [], removed => ⟨[], removed, []⟩
  | a :: rest, removed =>
    match removed.find? (identMatch a) with
    | some r =>
      let res := pairModified rest (removed.erase r)
      ⟨res.added, res.removed, copyComputed a r :: res.modified⟩
    | none =>
      let res := pairModified rest removed
      ⟨a :: res.added, res.removed, res.modified⟩

/-- The full diff step of `resourceVSphereVAppUpdate` (lines 1114-1146):
`addedEntitySet = newEntitySet.Difference(oldEntitySet)`,
`removedEntitySet = oldEntitySet.Difference(newEntitySet)` (set
difference compares the whole record, the schema set hashes every
attribute), then the pairing loop. -/
def entityDiff (previous declared : List EntityRec) : DiffResult :=
  pairModified (declared.filter (fun e => decide (e ∉ previous)))
    (previous.filter (fun e => decide (e ∉ declared)))

/-- Entity identities are unique within one entity list (data-model
invariant of the schema). -/
abbrev identNodup (l : List EntityRec) : Prop := (l.map ident).Nodup

/-- Conversion of the `type` input attribute to the managed-object type
(`getEntityType`, lines 1971-1980). -/
def getEntityType (eType : String) : String :=
  if eType == "vm" then "VirtualMachine"
  else if eType == "vapp" then "VirtualApp"
  else "UNKNOWN"

/-- The populated `vAppEntity` struct: embedded VAppEntityConfigInfo
ordering fields plus name, converted entity type and the computed
fields. -/
structure VAppEntity where
  startOrder : Int
  startDelay : Int
  stopDelay : Int
  startAction : String
  stopAction : String
  waitingForGuest : Bool
  name : String
  entityType : String
  entityFolderPath : String
  entityRPPath : String
  entityMoid : String
  folder : String
deriving DecidableEq, Repr

/-- `populateVAppEntities` (lines 1694-1737): builds a vAppEntity per
schema map. The guarded assignments (only when non-empty or non-zero)
coincide with copying because the zero values agree; `WaitingForGuest`
is read from the key "wait_for_guest", which is not a key of the entity
schema ("waiting_for_guest" is), so it is never set. -/
def populateVAppEntities (entitySet : List EntityRec) : List VAppEntity :=
  entitySet.map (fun e =>
    { name := e.name
      entityType := getEntityType e.etype
      folder := e.folder
      startOrder := e.start_order
      startDelay := e.start_delay
      stopDelay := e.stop_delay
      waitingForGuest := false
      startAction := e.start_action
      stopAction := e.stop_action
      entityMoid := e.moid
      entityFolderPath := e.folder_path
      entityRPPath := e.resourcepool_path })

/-- One types.VAppEntityConfigInfo record as submitted to the container
reconfiguration (`createEntityConfigInfo`, lines 1633-1653). -/
structure VAppEntityConfigInfo where
  keyType : String
  keyValue : String
  startOrder : Int
  startDelay : Int
  stopDelay : Int
  startAction : String
  stopAction : String
  waitingForGuest : Bool
deriving DecidableEq, Repr

/-- `createEntityConfigInfo` (lines 1633-1653): one ordering/timing
config record per entity, keyed by the object reference of the entity. -/
def createEntityConfigInfo (vAppEntities : List VAppEntity) : List VAppEntityConfigInfo :=
  vAppEntities.map (fun e =>
    { startOrder := e.startOrder, startDelay := e.startDelay,
      waitingForGuest := e.waitingForGuest, startAction := e.startAction,
      stopDelay := e.stopDelay, stopAction := e.stopAction,
      keyType := e.entityType, keyValue := e.entityMoid })

/-- The match condition of the back-populate scan (line 1991):
stored name equals reconciled name and the converted stored type equals
the reconciled entity type. -/
def bpMatch (e : EntityRec) (v : VAppEntity) : Bool :=
  e.name == v.name && getEntityType e.etype == v.entityType

/-- `backPopulateEntiy` (lines 1982-2012): walk the stored entity list;
for the first reconciled entity matching by (name, type) overwrite the
three computed fields, otherwise keep the stored entry unchanged. -/
def backPopulateEntiy (stored : List EntityRec) (vAppEntities : List VAppEntity) :
    List EntityRec :=
  match stored with
  | [] => []
  | e :: rest =>
    match vAppEntities.find? (bpMatch e) with
    | some v =>
      { e with folder_path := v.entityFolderPath,
               resourcepool_path := v.entityRPPath,
               moid := v.entityMoid } :: backPopulateEntiy rest vAppEntities
    | none => e :: backPopulateEntiy rest vAppEntities

/-- Classification of a terminal remote-task fault (types.HasFault):
the benign InvalidPowerState fault versus anything else. -/
inductive TaskFault
  | invalidPowerState
  | other (msg : String)
deriving DecidableEq, Repr

/-- Outcome of waiting on a submitted remote task. -/
inductive TaskOutcome
  | ok
  | fault (f : TaskFault)
deriving DecidableEq, Repr

def faultMsg : TaskFault → String
  | .invalidPowerState => "InvalidPowerState"
  | .other msg => msg

/-- Remote calls issued by the lifecycle operations, at phase
granularity. -/
inductive RemoteCall
  | retrieveVAppConfigCall
  | powerOnCall
  | powerOffCall
  | destroyCall
  | findVAppCall
  | detachEntitiesCall
deriving DecidableEq, Repr

/-- Remote responses consumed by `powerOnVApp` (lines 1300-1331): the
property-collector read of vAppConfig and the outcome of the PowerOn
task when one is submitted. -/
structure PowerOnEnv where
  retrieveConfig : Except String (List VAppEntityConfigInfo)
  powerOnTask : TaskOutcome

/-- `powerOnVApp` (lines 1300-1331): read back vAppConfig; only when the
EntityConfig list is non-empty submit PowerOn, downgrading an
InvalidPowerState fault to success; otherwise return success without
the remote call. Returns the issued calls and the result. -/
def powerOnVApp (env : PowerOnEnv) : List RemoteCall × Except String Unit :=
  match env.retrieveConfig with
  | .error e => ([.retrieveVAppConfigCall], .error e)
  | .ok cfg =>
    if cfg.length > 0 then
      match env.powerOnTask with
      | .ok => ([.retrieveVAppConfigCall, .powerOnCall], .ok ())
      | .fault .invalidPowerState =>
          ([.retrieveVAppConfigCall, .powerOnCall], .ok ())
      | .fault (.other msg) =>
          ([.retrieveVAppConfigCall, .powerOnCall], .error msg)
    else ([.retrieveVAppConfigCall], .ok ())

/-- Remote response consumed by `powerOffVApp`: the outcome of the
PowerOff task. -/
structure PowerOffEnv where
  powerOffTask : TaskOutcome

/-- `powerOffVApp` (lines 1333-1352): submit PowerOff unconditionally;
an InvalidPowerState fault (already powered off) is success, any other
fault is returned as the error. -/
def powerOffVApp (env : PowerOffEnv) : Except String Unit :=
  match env.powerOffTask with
  | .ok => .ok ()
  | .fault .invalidPowerState => .ok ()
  | .fault (.other msg) => .error msg

/-- Container power state on the remote side. -/
inductive PowerState
  | poweredOn
  | poweredOff
deriving DecidableEq, Repr

/-- Modelled from the spec: the remote power-off semantics the code
relies on (out-of-scope remote API) - powering off an already
powered-off container completes with the InvalidPowerState
(already in requested power state) fault. -/
def powerOffRemote : PowerState → PowerState × TaskOutcome
  | .poweredOn => (.poweredOff, .ok)
  | .poweredOff => (.poweredOff, .fault .invalidPowerState)

/-- Two consecutive power-off cycles against the remote power state:
the pair of results of `powerOffVApp`. -/
def powerOffTwice (s : PowerState) : Except String Unit × Except String Unit :=
  let step1 := powerOffRemote s
  let r1 := powerOffVApp ⟨step1.2⟩
  let step2 := powerOffRemote step1.1
  let r2 := powerOffVApp ⟨step2.2⟩
  (r1, r2)

/-- Finder responses consumed by `calculateResourcePool`:
`findVirtualAppPool` is the resource pool of a located virtual app. -/
structure RPEnv where
  findVirtualAppPool : String → Except String String
  findResourcePool : String → Except String String
  defaultResourcePool : Except String String

/-- `calculateResourcePool` (lines 1455-1486): pool of the parent container
when a parent is declared, else the named pool when one is declared,
else the default pool of the named cluster, else the datacenter default. -/
def calculateResourcePool (env : RPEnv)
    (parentVApp resourcePool cluster : String) : Except String String :=
  if parentVApp ≠ "" then
    env.findVirtualAppPool parentVApp
  else if resourcePool = "" then
    if cluster = "" then env.defaultResourcePool
    else env.findResourcePool ("*" ++ cluster ++ "/Resources")
  else
    env.findResourcePool resourcePool

/-- The managed-object type of a located datastore-like object:
a concrete Datastore or an aggregate StoragePod. -/
inductive DatastoreKind
  | concrete
  | storagePod
deriving DecidableEq, Repr

/-- Remote responses consumed by container creation: datastore
resolution, the lookups of the clone path and task outcomes, and the plain
CreateVApp call result. The resolved folder and resource-pool
references come from `calculateLocation`. -/
structure CreateEnv where
  hasTemplate : Bool
  datastoreName : String
  defaultDatastore : Except String String
  finderDatastore : String → Except String String
  datastoreObj : String → Except String (String × DatastoreKind)
  vmRefFromSource : Except String String
  placementDatastore : Except String String
  folderRef : String
  rpRef : String
  findSourceVApp : String → Except String String
  findNetwork : String → Except String String
  cloneTask : TaskOutcome
  findCreatedVApp : Except String String
  createVAppResult : Except String String

/-- `calculateDatastore` (lines 1399-1453): empty name takes the default
datastore; otherwise resolve by name, and on failure load the object:
a StoragePod issues a storage-placement query seeded with a VM reference
from the source container and uses its recommendation, a concrete
object is used directly. Called only from `cloneVApp` (line 1524). -/
def calculateDatastore (env : CreateEnv) : Except String String :=
  if env.datastoreName = "" then env.defaultDatastore
  else
    match env.finderDatastore env.datastoreName with
    | .ok ds => .ok ds
    | .error _ =>
      match env.datastoreObj env.datastoreName with
      | .error e => .error e
      | .ok (ref, kind) =>
        match kind with
        | .storagePod =>
          match env.vmRefFromSource with
          | .error e => .error e
          | .ok _ => env.placementDatastore
        | .concrete => .ok ref

/-- The declared container fields `cloneVApp` consumes. -/
structure VAppModel where
  name : String
  parentVApp : String
  templateName : String
  diskFormat : String
  networkMappings : List (String × String)

/-- The types.VAppCloneSpec submitted to CloneVApp_Task. -/
structure VAppCloneSpec where
  location : String
  provisioning : String
  networkMapping : List (String × String)
  vmFolder : Option String
deriving DecidableEq, Repr

/-- The types.CloneVApp_Task request. -/
structure CloneVAppReq where
  this : String
  name : String
  target : String
  spec : VAppCloneSpec
deriving DecidableEq, Repr

/-- The network-mapping loop of `cloneVApp` (lines 1537-1556): resolve
source and destination labels in order; any failure aborts. -/
def resolveNetworkMappings (env : CreateEnv) :
    List (String × String) → Except String (List (String × String))
  | [] => .ok []
  | nm :: rest =>
    match env.findNetwork nm.1 with
    | .error e => .error e
    | .ok src =>
      match env.findNetwork nm.2 with
      | .error e => .error e
      | .ok dst =>
        match resolveNetworkMappings env rest with
        | .error e => .error e
        | .ok pairs => .ok ((src, dst) :: pairs)

/-- Lines 1558-1569: the clone spec carries the resolved datastore,
provisioning mode and network mapping; the destination VM folder is
added only when no parent container is declared. -/
def buildVAppCloneSpec (parentVApp folderRef datastoreRef provisioning : String)
    (pairs : List (String × String)) : VAppCloneSpec :=
  let spec : VAppCloneSpec :=
    { location := datastoreRef, provisioning := provisioning,
      networkMapping := pairs, vmFolder := none }
  if parentVApp = "" then { spec with vmFolder := some folderRef } else spec

/-- `cloneVApp` (lines 1520-1598): resolve the datastore, the source
container and the network labels, build and submit the clone request,
wait on the task and look up the created container. Returns the
submitted request and the created container reference. -/
def cloneVApp (env : CreateEnv) (vapp : VAppModel) :
    Except String (CloneVAppReq × String) :=
  match calculateDatastore env with
  | .error e => .error e
  | .ok dsRef =>
    match env.findSourceVApp vapp.templateName with
    | .error e => .error e
    | .ok srcRef =>
      match resolveNetworkMappings env vapp.networkMappings with
      | .error e => .error e
      | .ok pairs =>
        let req : CloneVAppReq :=
          { this := srcRef, name := vapp.name, target := env.rpRef,
            spec := buildVAppCloneSpec vapp.parentVApp env.folderRef dsRef
              vapp.diskFormat pairs }
        match env.cloneTask with
        | .fault f => .error (faultMsg f)
        | .ok =>
          match env.findCreatedVApp with
          | .error e => .error e
          | .ok created => .ok (req, created)

/-- Result of the create dispatch: a cloned container (with the
submitted request) or one built by the plain CreateVApp call. -/
inductive CreateOutcome
  | cloned (req : CloneVAppReq) (createdVApp : String)
  | created (vappRef : String)
deriving DecidableEq, Repr

/-- The `create` dispatch (lines 1510-1518) with its two branches:
`cloneVApp` when a clone template is declared, otherwise `createVApp`
(lines 1613-1631), which submits CreateVApp under the resolved resource
pool and folder and never consults the datastore. -/
def createOp (env : CreateEnv) (vapp : VAppModel) : Except String CreateOutcome :=
  if env.hasTemplate then
    match cloneVApp env vapp with
    | .error e => .error e
    | .ok res => .ok (.cloned res.1 res.2)
  else
    match env.createVAppResult with
    | .error e => .error e
    | .ok ref => .ok (.created ref)

/-- Remote responses consumed by `resourceVSphereVAppDelete`. -/
structure DeleteEnv where
  constructOk : Except String Unit
  findVApp : Except String Unit
  entityCount : Nat
  removeEntitiesResult : Except String Unit
  powerOffTask : TaskOutcome
  destroyTask : TaskOutcome

/-- Trace, result and final id state of one delete cycle. -/
structure DeleteResult where
  calls : List RemoteCall
  result : Except String Unit
  idCleared : Bool
deriving Repr

/-- The tail of the delete after entity removal (lines 1235-1245):
power off via `powerOffVApp`, then destroy; a fatal power-off error
aborts before the destroy call. -/
def deletePowerOffDestroy (env : DeleteEnv) (pre : List RemoteCall) : DeleteResult :=
  match powerOffVApp ⟨env.powerOffTask⟩ with
  | .error e => ⟨pre ++ [.powerOffCall], .error e, false⟩
  | .ok _ =>
    match env.destroyTask with
    | .fault f => ⟨pre ++ [.powerOffCall, .destroyCall], .error (faultMsg f), false⟩
    | .ok => ⟨pre ++ [.powerOffCall, .destroyCall], .ok (), true⟩

/-- `resourceVSphereVAppDelete` (lines 1206-1250): construct the session
object, locate the container, detach the stored entities when any are
present, then power off, destroy and clear the id. -/
def resourceVSphereVAppDeleteOp (env : DeleteEnv) : DeleteResult :=
  match env.constructOk with
  | .error e => ⟨[], .error e, false⟩
  | .ok _ =>
  match env.findVApp with
  | .error e => ⟨[.findVAppCall], .error e, false⟩
  | .ok _ =>
    if env.entityCount > 0 then
      match env.removeEntitiesResult with
      | .error e => ⟨[.findVAppCall, .detachEntitiesCall], .error e, false⟩
      | .ok _ => deletePowerOffDestroy env [.findVAppCall, .detachEntitiesCall]
    else deletePowerOffDestroy env [.findVAppCall]

/-- Remote responses consumed by `resourceVSphereVAppRead`. -/
structure ReadEnv where
  constructOk : Except String Unit
  findVApp : Except String Unit
  retrieveUuid : Except String String

/-- `resourceVSphereVAppRead` (lines 1062-1086): when the container
cannot be located by its inventory path, clear the stored id and return
success; a property-collector failure is an error. Returns the new id
and the result. -/
def resourceVSphereVAppReadOp (env : ReadEnv) (currentId : String) :
    String × Except String Unit :=
  match env.constructOk with
  | .error e => (currentId, .error e)
  | .ok _ =>
  match env.findVApp with
  | .error _ => ("", .ok ())
  | .ok _ =>
    match env.retrieveUuid with
    | .error e => (currentId, .error e)
    | .ok _ => (currentId, .ok ())

/-- Remote responses consumed by `resourceVSphereVAppUpdate`. -/
structure UpdateEnv where
  constructOk : Except String Unit
  findVApp : Except String Unit
  hasEntityChange : Bool
  previousEntities : List EntityRec
  declaredEntities : List EntityRec
  addEntitiesResult : Except String Unit
  removeEntitiesResult : Except String Unit
  hasDescrChange : Bool
  updateConfigResult : Except String Unit
  backPopResult : Except String Unit

/-- The entity phase of the update (lines 1114-1181): diff the entity
sets, attach the added entities, detach the removed ones, and collect
the modified plus added entities for the reconfiguration. -/
def updateEntityPhase (env : UpdateEnv) : Except String (List VAppEntity) :=
  let delta := entityDiff env.previousEntities env.declaredEntities
  match (if delta.added.length > 0 then env.addEntitiesResult else .ok ()) with
  | .error e => .error e
  | .ok _ =>
    match (if delta.removed.length > 0 then env.removeEntitiesResult else .ok ()) with
    | .error e => .error e
    | .ok _ =>
      .ok (populateVAppEntities delta.modified ++ populateVAppEntities delta.added)

/-- `resourceVSphereVAppUpdate` (lines 1088-1204): construct the session
object, locate the container (a lookup failure is an error), run the
entity phase, then submit the reconfiguration and back-populate when
anything changed. -/
def resourceVSphereVAppUpdateOp (env : UpdateEnv) : Except String Unit :=
  match env.constructOk with
  | .error e => .error e
  | .ok _ =>
  match env.findVApp with
  | .error e => .error e
  | .ok _ =>
    if env.hasEntityChange then
      match updateEntityPhase env with
      | .error e => .error e
      | .ok modifiedAll =>
        let hasChange := modifiedAll.length > 0 || env.hasDescrChange
        match (if hasChange then env.updateConfigResult else .ok ()) with
        | .error e => .error e
        | .ok _ =>
          if modifiedAll.length > 0 then
            match env.backPopResult with
            | .error e => .error e
            | .ok _ => .ok ()
          else .ok ()
    else
      match (if env.hasDescrChange then env.updateConfigResult else .ok ()) with
      | .error e => .error e
      | .ok _ => .ok ()

/-- Entity record builder for concrete evaluations: name, type, start
order and the three computed fields; the remaining attributes take
their schema zero values. -/
def mkRec (n t : String) (so : Int) (mo fp rp : String) : EntityRec :=
  { name := n, etype := t, folder := "", start_order := so,
    start_delay := 0, stop_delay := 0, start_action := "",
    stop_action := "", waiting_for_guest := false,
    destroy_with_parent := false, moid := mo, folder_path := fp,
    resourcepool_path := rp }

def declA : EntityRec := mkRec "vm-a" "vm" 1 "" "" ""

def declC : EntityRec := mkRec "vm-c" "vm" 0 "" "" ""

def prevA : EntityRec := mkRec "vm-a" "vm" 0 "vm-123" "/dc/vm" "/dc/host/cl/Resources"

def prevB : EntityRec := mkRec "vm-b" "vm" 0 "vm-124" "/dc/vm" "/dc/host/cl/Resources"

def prevW : List EntityRec := [prevA, prevB]

def declW : List EntityRec := [declA, declC]

def envPowerOnEmpty : PowerOnEnv := ⟨.ok [], .ok⟩

def envRPW : RPEnv :=
  { findVirtualAppPool := fun _ => .ok "pool-parent",
    findResourcePool := fun p => .ok ("pool-" ++ p),
    defaultResourcePool := .ok "pool-default" }

def envPodPlain : CreateEnv :=
  { hasTemplate := false, datastoreName := "pod1",
    defaultDatastore := .error "no default datastore",
    finderDatastore := fun _ => .error "datastore not found",
    datastoreObj := fun _ => .ok ("storagepod-1", .storagePod),
    vmRefFromSource := .error "no clone template",
    placementDatastore := .error "unused",
    folderRef := "folder-A", rpRef := "rp-A",
    findSourceVApp := fun _ => .error "no clone template",
    findNetwork := fun _ => .error "unused",
    cloneTask := .ok, findCreatedVApp := .error "unused",
    createVAppResult := .ok "vapp-new" }

def vappPlainW : VAppModel :=
  { name := "app1", parentVApp := "", templateName := "",
    diskFormat := "sameAsSource", networkMappings := [] }

def envCloneW : CreateEnv :=
  { hasTemplate := true, datastoreName := "",
    defaultDatastore := .ok "ds-1",
    finderDatastore := fun _ => .ok "ds-1",
    datastoreObj := fun _ => .error "unused",
    vmRefFromSource := .ok "vm-1",
    placementDatastore := .ok "ds-2",
    folderRef := "folder-A", rpRef := "rp-A",
    findSourceVApp := fun _ => .ok "src-vapp",
    findNetwork := fun n => .ok ("net-" ++ n),
    cloneTask := .ok, findCreatedVApp := .ok "created-vapp",
    createVAppResult := .error "unused" }

def vappCloneNoParent : VAppModel :=
  { name := "app2", parentVApp := "", templateName := "tmpl",
    diskFormat := "thin", networkMappings := [("a", "b")] }

def cloneReqW : CloneVAppReq :=
  { this := "src-vapp", name := "app2", target := "rp-A",
    spec := { location := "ds-1", provisioning := "thin",
              networkMapping := [("net-a", "net-b")],
              vmFolder := some "folder-A" } }

def envDeleteAllOk : DeleteEnv :=
  { constructOk := .ok (), findVApp := .ok (), entityCount := 1,
    removeEntitiesResult := .ok (), powerOffTask := .ok, destroyTask := .ok }

def envDeleteFatalPO : DeleteEnv :=
  { constructOk := .ok (), findVApp := .ok (), entityCount := 1,
    removeEntitiesResult := .ok (),
    powerOffTask := .fault (.other "power off failed"), destroyTask := .ok }

def envDeleteFindFail : DeleteEnv :=
  { constructOk := .ok (), findVApp := .error "vapp not found",
    entityCount := 0, removeEntitiesResult := .ok (),
    powerOffTask := .ok, destroyTask := .ok }

def envReadFindFail : ReadEnv :=
  { constructOk := .ok (), findVApp := .error "vapp not found",
    retrieveUuid := .ok "uuid-1" }

def envUpdateFindFail : UpdateEnv :=
  { constructOk := .ok (), findVApp := .error "vapp not found",
    hasEntityChange := false, previousEntities := [],
    declaredEntities := [], addEntitiesResult := .ok (),
    removeEntitiesResult := .ok (), hasDescrChange := false,
    updateConfigResult := .ok (), backPopResult := .ok () }

theorem identMatch_iff (a r : EntityRec) :
    identMatch a r = true ↔ ident a = ident r := by
  simp [identMatch, ident, Prod.ext_iff]

theorem ident_copyComputed (d p : EntityRec) :
    ident (copyComputed d p) = ident d := rfl

theorem identNodup_ne {l : List EntityRec} (h : identNodup l)
    {x y : EntityRec} (hx : x ∈ l) (hy : y ∈ l) (hne : x ≠ y) :
    ident x ≠ ident y := by
  intro he
  exact hne (List.inj_on_of_nodup_map h hx hy he)

theorem identNodup_nodup {l : List EntityRec} (h : identNodup l) :
    l.Nodup := List.Nodup.of_map ident h

theorem identNodup_erase {l : List EntityRec} (h : identNodup l)
    (r : EntityRec) : identNodup (l.erase r) :=
  List.Nodup.sublist ((l.erase_sublist r).map ident) h

theorem identNodup_cons {a : EntityRec} {l : List EntityRec}
    (h : identNodup (a :: l)) :
    ident a ∉ l.map ident ∧ identNodup l := by
  simpa [identNodup] using h

/-- Membership in the added list after the pairing loop: exactly the
entries of the added snapshot whose identity matches no entry of the
removed set. -/
theorem pairModified_added_mem {as rs : List EntityRec}
    (has : identNodup as) (hrs : identNodup rs) (x : EntityRec) :
    x ∈ (pairModified as rs).added ↔
      x ∈ as ∧ ∀ r ∈ rs, ident x ≠ ident r := by
  induction as generalizing rs with
  | nil => simp [pairModified]
  | cons a rest ih =>
    obtain ⟨hna, hrest⟩ := identNodup_cons has
    cases hfind : rs.find? (identMatch a) with
    | some r =>
      have hrmem : r ∈ rs := List.mem_of_find?_eq_some hfind
      have hmr : ident a = ident r :=
        (identMatch_iff a r).mp (List.find?_some hfind)
      have herase := identNodup_erase hrs r
      simp only [pairModified, hfind]
      rw [ih hrest herase]
      constructor
      · rintro ⟨hxrest, hnomatch⟩
        refine ⟨List.mem_cons_of_mem a hxrest, ?_⟩
        intro r' hr' heq
        by_cases hr'r : r' = r
        · subst hr'r
          have : ident x ≠ ident a := by
            intro he
            exact hna (he ▸ List.mem_map_of_mem ident hxrest)
          exact this (heq.trans hmr.symm)
        · have : r' ∈ rs.erase r :=
            (List.Nodup.mem_erase_iff (identNodup_nodup hrs)).mpr
              ⟨hr'r, hr'⟩
          exact hnomatch r' this heq
      · rintro ⟨hxmem, hnomatch⟩
        have hxa : x ≠ a := by
          intro he
          exact hnomatch r hrmem (he ▸ hmr)
        rcases List.mem_cons.mp hxmem with he | hxrest
        · exact absurd he hxa
        refine ⟨hxrest, ?_⟩
        intro r' hr' heq
        exact hnomatch r' (List.mem_of_mem_erase hr') heq
    | none =>
      have hnone : ∀ r ∈ rs, ¬ identMatch a r = true :=
        List.find?_eq_none.mp hfind
      simp only [pairModified, hfind, List.mem_cons]
      rw [ih hrest hrs]
      constructor
      · rintro (he | ⟨hxrest, hnomatch⟩)
        · subst he
          refine ⟨Or.inl rfl, ?_⟩
          intro r hr heq
          exact hnone r hr ((identMatch_iff x r).mpr heq)
        · exact ⟨Or.inr hxrest, hnomatch⟩
      · rintro ⟨he | hxrest, hnomatch⟩
        · exact Or.inl he
        · exact Or.inr ⟨hxrest, hnomatch⟩

/-- Membership in the removed list after the pairing loop: exactly the
entries of the removed set whose identity matches no entry of the added
snapshot. -/
theorem pairModified_removed_mem {as rs : List EntityRec}
    (has : identNodup as) (hrs : identNodup rs) (y : EntityRec) :
    y ∈ (pairModified as rs).removed ↔
      y ∈ rs ∧ ∀ a ∈ as, ident a ≠ ident y := by
  induction as generalizing rs with
  | nil => simp [pairModified]
  | cons a rest ih =>
    obtain ⟨hna, hrest⟩ := identNodup_cons has
    cases hfind : rs.find? (identMatch a) with
    | some r =>
      have hrmem : r ∈ rs := List.mem_of_find?_eq_some hfind
      have hmr : ident a = ident r :=
        (identMatch_iff a r).mp (List.find?_some hfind)
      have herase := identNodup_erase hrs r
      simp only [pairModified, hfind]
      rw [ih hrest herase]
      constructor
      · rintro ⟨hymem, hnomatch⟩
        have hymem' : y ∈ rs := List.mem_of_mem_erase hymem
        have hyr : y ≠ r :=
          ((List.Nodup.mem_erase_iff (identNodup_nodup hrs)).mp hymem).1
        refine ⟨hymem', ?_⟩
        intro a' ha' heq
        rcases List.mem_cons.mp ha' with he | ha'rest
        · subst he
          exact identNodup_ne hrs hymem' hrmem hyr (hmr ▸ heq).symm
        · exact hnomatch a' ha'rest heq
      · rintro ⟨hymem, hnomatch⟩
        have hyr : y ≠ r := by
          intro he
          exact hnomatch a (List.mem_cons_self a rest) (he ▸ hmr)
        refine ⟨(List.Nodup.mem_erase_iff (identNodup_nodup hrs)).mpr
          ⟨hyr, hymem⟩, ?_⟩
        intro a' ha' heq
        exact hnomatch a' (List.mem_cons_of_mem a ha') heq
    | none =>
      have hnone : ∀ r ∈ rs, ¬ identMatch a r = true :=
        List.find?_eq_none.mp hfind
      simp only [pairModified, hfind]
      rw [ih hrest hrs]
      constructor
      · rintro ⟨hymem, hnomatch⟩
        refine ⟨hymem, ?_⟩
        intro a' ha' heq
        rcases List.mem_cons.mp ha' with he | ha'rest
        · subst he
          exact hnone y hymem ((identMatch_iff a' y).mpr heq)
        · exact hnomatch a' ha'rest heq
      · rintro ⟨hymem, hnomatch⟩
        exact ⟨hymem, fun a' ha' => hnomatch a' (List.mem_cons_of_mem a ha')⟩

/-- Membership in the modified list after the pairing loop: exactly the
computed-field-copied combinations of an added and a removed entry that
share identity. -/
theorem pairModified_modified_mem {as rs : List EntityRec}
    (has : identNodup as) (hrs : identNodup rs) (m : EntityRec) :
    m ∈ (pairModified as rs).modified ↔
      ∃ a ∈ as, ∃ r ∈ rs, ident a = ident r ∧ m = copyComputed a r := by
  induction as generalizing rs with
  | nil => simp [pairModified]
  | cons a rest ih =>
    obtain ⟨hna, hrest⟩ := identNodup_cons has
    cases hfind : rs.find? (identMatch a) with
    | some r =>
      have hrmem : r ∈ rs := List.mem_of_find?_eq_some hfind
      have hmr : ident a = ident r :=
        (identMatch_iff a r).mp (List.find?_some hfind)
      have herase := identNodup_erase hrs r
      simp only [pairModified, hfind, List.mem_cons]
      rw [ih hrest herase]
      constructor
      · rintro (he | ⟨a', ha', r', hr', heq, hm⟩)
        · exact ⟨a, Or.inl rfl, r, hrmem, hmr, he⟩
        · exact ⟨a', Or.inr ha', r', List.mem_of_mem_erase hr', heq, hm⟩
      · rintro ⟨a', ha', r', hr', heq, hm⟩
        rcases ha' with he | ha'rest
        · subst he
          have : r' = r := by
            by_contra hne
            exact identNodup_ne hrs hr' hrmem hne (heq.symm.trans hmr)
          subst this
          exact Or.inl hm
        · have hne : ident a' ≠ ident a := by
            intro he
            exact hna (he ▸ List.mem_map_of_mem ident ha'rest)
          have hr'r : r' ≠ r := by
            intro he
            exact hne (heq.trans (he ▸ hmr.symm))
          exact Or.inr ⟨a', ha'rest, r',
            (List.Nodup.mem_erase_iff (identNodup_nodup hrs)).mpr
              ⟨hr'r, hr'⟩, heq, hm⟩
    | none =>
      have hnone : ∀ r ∈ rs, ¬ identMatch a r = true :=
        List.find?_eq_none.mp hfind
      simp only [pairModified, hfind]
      rw [ih hrest hrs]
      constructor
      · rintro ⟨a', ha', r', hr', heq, hm⟩
        exact ⟨a', List.mem_cons_of_mem a ha', r', hr', heq, hm⟩
      · rintro ⟨a', ha', r', hr', heq, hm⟩
        rcases List.mem_cons.mp ha' with he | ha'rest
        · subst he
          exact absurd ((identMatch_iff a' r').mpr heq) (hnone r' hr')
        · exact ⟨a', ha'rest, r', hr', heq, hm⟩

theorem mem_diffFilter {l1 l2 : List EntityRec} {x : EntityRec} :
    x ∈ l1.filter (fun e => decide (e ∉ l2)) ↔ x ∈ l1 ∧ x ∉ l2 := by
  simp [List.mem_filter]

theorem identNodup_filter {l : List EntityRec} (h : identNodup l)
    (p : EntityRec → Bool) : identNodup (l.filter p) :=
  List.Nodup.sublist ((List.filter_sublist l).map ident) h

/-- C1: the diff step of the update operation partitions the union of
the declared and previous entity lists into added, removed and modified
sets: the three sets are pairwise identity-disjoint, entries whose
identity occurs only in the declared list end up added, entries whose
identity occurs only in the previous list end up removed, identities in
both lists with differing attributes end up modified, and every output
entry originates from the two input lists. Entries occurring in both
lists with identical attributes cancel in the set differences and are
untouched. -/
theorem entityDiff_partitions (previous declared : List EntityRec)
    (hp : identNodup previous) (hd : identNodup declared) :
    (∀ x ∈ (entityDiff previous declared).added,
       ∀ y ∈ (entityDiff previous declared).removed, ident x ≠ ident y) ∧
    (∀ x ∈ (entityDiff previous declared).added,
       ∀ m ∈ (entityDiff previous declared).modified, ident x ≠ ident m) ∧
    (∀ y ∈ (entityDiff previous declared).removed,
       ∀ m ∈ (entityDiff previous declared).modified, ident y ≠ ident m) ∧
    (∀ e ∈ declared, (∀ p ∈ previous, ident p ≠ ident e) →
       e ∈ (entityDiff previous declared).added) ∧
    (∀ e ∈ previous, (∀ d ∈ declared, ident d ≠ ident e) →
       e ∈ (entityDiff previous declared).removed) ∧
    (∀ d ∈ declared, ∀ p ∈ previous, ident d = ident p → d ≠ p →
       copyComputed d p ∈ (entityDiff previous declared).modified) ∧
    (∀ x ∈ (entityDiff previous declared).added, x ∈ declared) ∧
    (∀ y ∈ (entityDiff previous declared).removed, y ∈ previous) ∧
    (∀ m ∈ (entityDiff previous declared).modified,
       (∃ d ∈ declared, ident m = ident d) ∧
       ∃ p ∈ previous, ident m = ident p) := by
  have has : identNodup (declared.filter (fun e => decide (e ∉ previous))) :=
    identNodup_filter hd _
  have hrs : identNodup (previous.filter (fun e => decide (e ∉ declared))) :=
    identNodup_filter hp _
  have hA := fun x => pairModified_added_mem has hrs x
  have hR := fun y => pairModified_removed_mem has hrs y
  have hM := fun m => pairModified_modified_mem has hrs m
  refine ⟨?_, ?_, ?_, ?_, ?_, ?_, ?_, ?_, ?_⟩
  · intro x hx y hy heq
    obtain ⟨-, hxno⟩ := (hA x).mp hx
    obtain ⟨hyrs, -⟩ := (hR y).mp hy
    exact hxno y hyrs heq
  · intro x hx m hm heq
    obtain ⟨-, hxno⟩ := (hA x).mp hx
    obtain ⟨a, -, r, hr, hir, hmeq⟩ := (hM m).mp hm
    have him : ident m = ident a := by rw [hmeq, ident_copyComputed]
    exact hxno r hr ((heq.trans him).trans hir)
  · intro y hy m hm heq
    obtain ⟨-, hyno⟩ := (hR y).mp hy
    obtain ⟨a, ha, r, -, -, hmeq⟩ := (hM m).mp hm
    have him : ident m = ident a := by rw [hmeq, ident_copyComputed]
    exact hyno a ha (him ▸ heq).symm
  · intro e he hno
    have henp : e ∉ previous := fun hmem => hno e hmem rfl
    refine (hA e).mpr ⟨mem_diffFilter.mpr ⟨he, henp⟩, ?_⟩
    intro r hr heq
    exact hno r (mem_diffFilter.mp hr).1 heq.symm
  · intro e he hno
    have hend : e ∉ declared := fun hmem => hno e hmem rfl
    refine (hR e).mpr ⟨mem_diffFilter.mpr ⟨he, hend⟩, ?_⟩
    intro a ha heq
    exact hno a (mem_diffFilter.mp ha).1 heq
  · intro d hdm p hpm hip hne
    have hdnp : d ∉ previous := by
      intro hdp
      exact identNodup_ne hp hdp hpm hne hip
    have hpnd : p ∉ declared := by
      intro hpd
      exact identNodup_ne hd hpd hdm (Ne.symm hne) hip.symm
    exact (hM (copyComputed d p)).mpr
      ⟨d, mem_diffFilter.mpr ⟨hdm, hdnp⟩, p,
        mem_diffFilter.mpr ⟨hpm, hpnd⟩, hip, rfl⟩
  · intro x hx
    exact (mem_diffFilter.mp ((hA x).mp hx).1).1
  · intro y hy
    exact (mem_diffFilter.mp ((hR y).mp hy).1).1
  · intro m hm
    obtain ⟨a, ha, r, hr, hir, hmeq⟩ := (hM m).mp hm
    have him : ident m = ident a := by rw [hmeq, ident_copyComputed]
    exact ⟨⟨a, (mem_diffFilter.mp ha).1, him⟩,
      ⟨r, (mem_diffFilter.mp hr).1, him.trans hir⟩⟩

theorem entityDiff_partitions_witness :
    identNodup prevW ∧ identNodup declW ∧
    declC ∈ (entityDiff prevW declW).added ∧
    prevB ∈ (entityDiff prevW declW).removed ∧
    copyComputed declA prevA ∈ (entityDiff prevW declW).modified := by
  obtain ⟨-, -, -, h4, h5, h6, -, -, -⟩ :=
    entityDiff_partitions prevW declW (by decide) (by decide)
  exact ⟨by decide, by decide, h4 declC (by decide) (by decide),
    h5 prevB (by decide) (by decide),
    h6 declA (by decide) prevA (by decide) (by decide) (by decide)⟩

/-- C2: every modified entry produced by the diff step pairs a declared
entry with a previous entry of the same identity and carries the
timing/ordering attributes of the declared entry together with the
computed fields moid, folder_path and resourcepool_path of the previous
entry. -/
theorem entityDiff_modified_fields (previous declared : List EntityRec)
    (hp : identNodup previous) (hd : identNodup declared) :
    ∀ m ∈ (entityDiff previous declared).modified,
      ∃ d ∈ declared, ∃ p ∈ previous, ident d = ident p ∧
        m.moid = p.moid ∧ m.folder_path = p.folder_path ∧
        m.resourcepool_path = p.resourcepool_path ∧
        m.start_order = d.start_order ∧ m.start_delay = d.start_delay ∧
        m.stop_delay = d.stop_delay ∧ m.start_action = d.start_action ∧
        m.stop_action = d.stop_action ∧
        m.waiting_for_guest = d.waiting_for_guest ∧
        m.destroy_with_parent = d.destroy_with_parent ∧
        m.name = d.name ∧ m.etype = d.etype ∧ m.folder = d.folder := by
  intro m hm
  obtain ⟨a, ha, r, hr, hir, hmeq⟩ :=
    (pairModified_modified_mem (identNodup_filter hd _)
      (identNodup_filter hp _) m).mp hm
  subst hmeq
  exact ⟨a, (mem_diffFilter.mp ha).1, r, (mem_diffFilter.mp hr).1, hir,
    rfl, rfl, rfl, rfl, rfl, rfl, rfl, rfl, rfl, rfl, rfl, rfl, rfl⟩

theorem entityDiff_modified_fields_witness :
    ∃ d ∈ declW, ∃ p ∈ prevW, ident d = ident p ∧
      (copyComputed declA prevA).moid = p.moid ∧
      (copyComputed declA prevA).folder_path = p.folder_path ∧
      (copyComputed declA prevA).resourcepool_path = p.resourcepool_path ∧
      (copyComputed declA prevA).start_order = d.start_order ∧
      (copyComputed declA prevA).start_delay = d.start_delay ∧
      (copyComputed declA prevA).stop_delay = d.stop_delay ∧
      (copyComputed declA prevA).start_action = d.start_action ∧
      (copyComputed declA prevA).stop_action = d.stop_action ∧
      (copyComputed declA prevA).waiting_for_guest = d.waiting_for_guest ∧
      (copyComputed declA prevA).destroy_with_parent = d.destroy_with_parent ∧
      (copyComputed declA prevA).name = d.name ∧
      (copyComputed declA prevA).etype = d.etype ∧
      (copyComputed declA prevA).folder = d.folder :=
  entityDiff_modified_fields prevW declW (by decide) (by decide)
    (copyComputed declA prevA) (by decide)

/-- C3: power-on first reads back the entity-configuration
list; when it is empty the operation returns success without issuing the
remote power-on call, and the power-on call is issued only under a
successfully read non-empty list. -/
theorem powerOnVApp_gated (env : PowerOnEnv) :
    (powerOnVApp env).1.head? = some .retrieveVAppConfigCall ∧
    (env.retrieveConfig = .ok [] →
       powerOnVApp env = ([.retrieveVAppConfigCall], .ok ())) ∧
    (RemoteCall.powerOnCall ∈ (powerOnVApp env).1 →
       ∃ cfg, env.retrieveConfig = .ok cfg ∧ cfg ≠ []) := by
  obtain ⟨rc, po⟩ := env
  rcases rc with e | cfg
  · simp [powerOnVApp]
  · rcases cfg with - | ⟨c, cfgs⟩
    · simp [powerOnVApp]
    · rcases po with - | f
      · exact ⟨by simp [powerOnVApp], by simp [powerOnVApp],
          fun _ => ⟨c :: cfgs, rfl, by simp⟩⟩
      · rcases f with - | msg
        · exact ⟨by simp [powerOnVApp], by simp [powerOnVApp],
            fun _ => ⟨c :: cfgs, rfl, by simp⟩⟩
        · exact ⟨by simp [powerOnVApp], by simp [powerOnVApp],
            fun _ => ⟨c :: cfgs, rfl, by simp⟩⟩

theorem powerOnVApp_gated_witness :
    powerOnVApp envPowerOnEmpty = ([.retrieveVAppConfigCall], .ok ()) ∧
    RemoteCall.powerOnCall ∉ (powerOnVApp envPowerOnEmpty).1 :=
  ⟨(powerOnVApp_gated envPowerOnEmpty).2.1 rfl, by decide⟩

/-- C7: a power-off whose task completes with the benign
already-powered-off fault returns success, any other task fault is
returned as an error, and against the remote power-state semantics two
consecutive power-off cycles both return success. -/
theorem powerOffVApp_idempotent :
    powerOffVApp ⟨.fault .invalidPowerState⟩ = .ok () ∧
    (∀ msg, powerOffVApp ⟨.fault (.other msg)⟩ = .error msg) ∧
    powerOffVApp ⟨.ok⟩ = .ok () ∧
    (∀ s, (powerOffTwice s).1 = .ok () ∧ (powerOffTwice s).2 = .ok ()) := by
  refine ⟨rfl, fun msg => rfl, rfl, fun s => ?_⟩
  cases s <;> exact ⟨rfl, rfl⟩

/-- C9: the back-populate merge keeps the length of the stored list and
order; a stored entry with a matching reconciled entity has exactly its
moid, folder_path and resourcepool_path overwritten from the reconciled
value, and a stored entry without a match is kept unchanged. -/
theorem backPopulateEntiy_frame (stored : List EntityRec)
    (recon : List VAppEntity) :
    (backPopulateEntiy stored recon).length = stored.length ∧
    ∀ i : Nat, (backPopulateEntiy stored recon)[i]? =
      (stored[i]?).map (fun e =>
        match recon.find? (bpMatch e) with
        | some v => { e with moid := v.entityMoid,
                             folder_path := v.entityFolderPath,
                             resourcepool_path := v.entityRPPath }
        | none => e) := by
  induction stored with
  | nil => exact ⟨rfl, fun i => by simp [backPopulateEntiy]⟩
  | cons e rest ih =>
    constructor
    · cases hf : recon.find? (bpMatch e) <;>
        simp [backPopulateEntiy, hf, ih.1]
    · intro i
      cases i with
      | zero =>
        cases hf : recon.find? (bpMatch e) <;>
          simp [backPopulateEntiy, hf]
      | succ n =>
        cases hf : recon.find? (bpMatch e) <;>
          simp [backPopulateEntiy, hf, ih.2 n]

/-- C6: resource-pool selection precedence, first match wins: the parent
pool of the parent container when one is declared (regardless of any
explicitly named pool), else the explicitly named pool, else the named
default pool of the named cluster, else the datacenter default pool. -/
theorem calculateResourcePool_precedence (env : RPEnv)
    (parentVApp resourcePool cluster : String) :
    (parentVApp ≠ "" →
       calculateResourcePool env parentVApp resourcePool cluster =
         env.findVirtualAppPool parentVApp) ∧
    (parentVApp = "" → resourcePool ≠ "" →
       calculateResourcePool env parentVApp resourcePool cluster =
         env.findResourcePool resourcePool) ∧
    (parentVApp = "" → resourcePool = "" → cluster ≠ "" →
       calculateResourcePool env parentVApp resourcePool cluster =
         env.findResourcePool ("*" ++ cluster ++ "/Resources")) ∧
    (parentVApp = "" → resourcePool = "" → cluster = "" →
       calculateResourcePool env parentVApp resourcePool cluster =
         env.defaultResourcePool) := by
  refine ⟨?_, ?_, ?_, ?_⟩ <;> intros <;> simp [calculateResourcePool, *]

theorem calculateResourcePool_precedence_witness :
    calculateResourcePool envRPW "parent-vapp" "explicit-pool" "" =
      .ok "pool-parent" :=
  ((calculateResourcePool_precedence envRPW "parent-vapp" "explicit-pool"
    "").1 (by decide)).trans rfl

/-- C8: the clone specification submitted to the remote clone operation
carries an explicit destination VM folder exactly when no parent
container is declared, and omits it when one is. -/
theorem cloneVApp_folder_iff (env : CreateEnv) (vapp : VAppModel)
    (req : CloneVAppReq) (created : String)
    (h : cloneVApp env vapp = .ok (req, created)) :
    (req.spec.vmFolder = some env.folderRef ↔ vapp.parentVApp = "") ∧
    (vapp.parentVApp ≠ "" → req.spec.vmFolder = none) := by
  unfold cloneVApp at h
  rcases hds : calculateDatastore env with e | dsRef <;> rw [hds] at h
  · simp at h
  rcases hsv : env.findSourceVApp vapp.templateName with e | srcRef <;>
    rw [hsv] at h
  · simp at h
  rcases hnm : resolveNetworkMappings env vapp.networkMappings
      with e | pairs <;> rw [hnm] at h
  · simp at h
  rcases hct : env.cloneTask with - | f <;> rw [hct] at h
  case fault => simp at h
  rcases hcv : env.findCreatedVApp with e | createdRef <;> rw [hcv] at h
  · simp at h
  obtain ⟨hreq, -⟩ : _ ∧ createdRef = created := by
    simpa using h
  subst hreq
  by_cases hpv : vapp.parentVApp = "" <;>
    simp [buildVAppCloneSpec, hpv]

theorem cloneVApp_folder_witness :
    cloneVApp envCloneW vappCloneNoParent = .ok (cloneReqW, "created-vapp") ∧
    (cloneReqW.spec.vmFolder = some envCloneW.folderRef ↔
      vappCloneNoParent.parentVApp = "") :=
  ⟨rfl, (cloneVApp_folder_iff envCloneW vappCloneNoParent cloneReqW
    "created-vapp" rfl).1⟩

/-- C5 counterexample: a declared container with no clone template whose
datastore name resolves to a StoragePod. `createOp` dispatches to the
plain CreateVApp branch, which never consults the datastore: the create
succeeds and a container is created, with no configuration error
rejecting the storage pool. -/
theorem createOp_storagePod_counterexample :
    envPodPlain.hasTemplate = false ∧
    envPodPlain.datastoreObj envPodPlain.datastoreName =
      .ok ("storagepod-1", .storagePod) ∧
    createOp envPodPlain vappPlainW = .ok (.created "vapp-new") :=
  ⟨rfl, rfl, rfl⟩

/-- C5 (amended): a non-clone create never resolves the datastore at
all: its result is exactly the result of the CreateVApp call, whatever the
datastore name resolves to, so a storage-pool datastore target is not
rejected. The StoragePod handling of `calculateDatastore` runs only in
the clone path. -/
theorem createOp_plain_ignores_datastore (env : CreateEnv)
    (vapp : VAppModel) (h : env.hasTemplate = false) :
    createOp env vapp = Except.map CreateOutcome.created env.createVAppResult := by
  cases hc : env.createVAppResult <;> simp [createOp, h, hc, Except.map]

theorem createOp_plain_ignores_datastore_witness :
    envPodPlain.hasTemplate = false ∧
    createOp envPodPlain vappPlainW =
      Except.map CreateOutcome.created envPodPlain.createVAppResult :=
  ⟨rfl, createOp_plain_ignores_datastore envPodPlain vappPlainW rfl⟩

/-- C4 counterexample: with one stored entity and every remote call
succeeding, the delete issues find, detach, power off, destroy in that
order; the claimed power-off-before-detach sequencing (power off, then
detach, then destroy) does not hold of the call trace. -/
theorem resourceVSphereVAppDeleteOp_counterexample :
    (resourceVSphereVAppDeleteOp envDeleteAllOk).calls =
      [.findVAppCall, .detachEntitiesCall, .powerOffCall, .destroyCall] ∧
    ¬ List.Sublist [RemoteCall.powerOffCall, RemoteCall.detachEntitiesCall]
        (resourceVSphereVAppDeleteOp envDeleteAllOk).calls :=
  ⟨rfl, by decide⟩


/-- C4 (amended): the delete issues its remote calls in the order find,
detach entities, power off, destroy (every trace is an ordered sublist
of that sequence); when entities are stored, a power off in the trace is
always accompanied by the detach; destroy is reached only when power off
did not return a fatal fault; and a non-benign power-off fault aborts
the delete with that error and the destroy call is never issued. -/
theorem resourceVSphereVAppDeleteOp_sequencing (env : DeleteEnv) :
    List.Sublist (resourceVSphereVAppDeleteOp env).calls
      [.findVAppCall, .detachEntitiesCall, .powerOffCall, .destroyCall] ∧
    (env.entityCount > 0 →
       RemoteCall.powerOffCall ∈ (resourceVSphereVAppDeleteOp env).calls →
       RemoteCall.detachEntitiesCall ∈ (resourceVSphereVAppDeleteOp env).calls) ∧
    (RemoteCall.destroyCall ∈ (resourceVSphereVAppDeleteOp env).calls →
       RemoteCall.powerOffCall ∈ (resourceVSphereVAppDeleteOp env).calls ∧
       (env.powerOffTask = .ok ∨
        env.powerOffTask = .fault .invalidPowerState)) ∧
    (∀ msg, env.powerOffTask = .fault (.other msg) →
       RemoteCall.destroyCall ∉ (resourceVSphereVAppDeleteOp env).calls ∧
       (RemoteCall.powerOffCall ∈ (resourceVSphereVAppDeleteOp env).calls →
        (resourceVSphereVAppDeleteOp env).result = .error msg)) := by
  obtain ⟨co, fv, n, rr, po, dt⟩ := env
  rcases co with e | -
  · exact ⟨List.nil_sublist _,
      fun _ hp => absurd hp (List.not_mem_nil _),
      fun hd => absurd hd (List.not_mem_nil _),
      fun msg _ => ⟨List.not_mem_nil _,
        fun hp => absurd hp (List.not_mem_nil _)⟩⟩
  rcases fv with e | -
  · have hc : (resourceVSphereVAppDeleteOp
        ⟨.ok (), .error e, n, rr, po, dt⟩).calls = [.findVAppCall] := rfl
    refine ⟨?_, ?_, ?_, ?_⟩
    · rw [hc]; decide
    · intro _ hp; rw [hc] at hp; exact absurd hp (by decide)
    · intro hd; rw [hc] at hd; exact absurd hd (by decide)
    · intro msg _
      refine ⟨?_, fun hp => ?_⟩
      · rw [hc]; decide
      · rw [hc] at hp; exact absurd hp (by decide)
  rcases n with - | n0
  · rcases po with - | f
    · have hc : ∀ dt', (resourceVSphereVAppDeleteOp
          ⟨.ok (), .ok (), 0, rr, .ok, dt'⟩).calls =
          [.findVAppCall, .powerOffCall, .destroyCall] := by
        intro dt'; cases dt' <;> rfl
      refine ⟨by rw [hc]; decide, fun hpos => absurd hpos (Nat.lt_irrefl 0),
        fun _ => ⟨by rw [hc]; decide, Or.inl rfl⟩,
        fun msg hmsg => nomatch hmsg⟩
    · rcases f with - | msg0
      · have hc : ∀ dt', (resourceVSphereVAppDeleteOp
            ⟨.ok (), .ok (), 0, rr, .fault .invalidPowerState, dt'⟩).calls =
            [.findVAppCall, .powerOffCall, .destroyCall] := by
          intro dt'; cases dt' <;> rfl
        refine ⟨by rw [hc]; decide, fun hpos => absurd hpos (Nat.lt_irrefl 0),
          fun _ => ⟨by rw [hc]; decide, Or.inr rfl⟩,
          fun msg hmsg => nomatch hmsg⟩
      · have hc : (resourceVSphereVAppDeleteOp
            ⟨.ok (), .ok (), 0, rr, .fault (.other msg0), dt⟩).calls =
            [.findVAppCall, .powerOffCall] := rfl
        have hr : (resourceVSphereVAppDeleteOp
            ⟨.ok (), .ok (), 0, rr, .fault (.other msg0), dt⟩).result =
            .error msg0 := rfl
        refine ⟨by rw [hc]; decide, fun hpos => absurd hpos (Nat.lt_irrefl 0),
          fun hd => by rw [hc] at hd; exact absurd hd (by decide), ?_⟩
        intro msg hmsg
        injection hmsg with h1
        injection h1 with h2
        subst h2
        exact ⟨by rw [hc]; decide, fun _ => hr⟩
  · rcases rr with e | -
    · have hc : (resourceVSphereVAppDeleteOp
          ⟨.ok (), .ok (), n0 + 1, .error e, po, dt⟩).calls =
          [.findVAppCall, .detachEntitiesCall] := by
        simp [resourceVSphereVAppDeleteOp]
      refine ⟨by rw [hc]; decide, fun _ _ => by rw [hc]; decide,
        fun hd => by rw [hc] at hd; exact absurd hd (by decide), ?_⟩
      intro msg _
      refine ⟨?_, fun hp => ?_⟩
      · rw [hc]; decide
      · rw [hc] at hp; exact absurd hp (by decide)
    · rcases po with - | f
      · have hc : ∀ dt', (resourceVSphereVAppDeleteOp
            ⟨.ok (), .ok (), n0 + 1, .ok (), .ok, dt'⟩).calls =
            [.findVAppCall, .detachEntitiesCall, .powerOffCall,
             .destroyCall] := by
          intro dt'
          cases dt' <;>
            simp [resourceVSphereVAppDeleteOp, deletePowerOffDestroy,
              powerOffVApp]
        refine ⟨by rw [hc], fun _ _ => by rw [hc]; decide,
          fun _ => ⟨by rw [hc]; decide, Or.inl rfl⟩,
          fun msg hmsg => nomatch hmsg⟩
      · rcases f with - | msg0
        · have hc : ∀ dt', (resourceVSphereVAppDeleteOp
              ⟨.ok (), .ok (), n0 + 1, .ok (),
                .fault .invalidPowerState, dt'⟩).calls =
              [.findVAppCall, .detachEntitiesCall, .powerOffCall,
               .destroyCall] := by
            intro dt'
            cases dt' <;>
              simp [resourceVSphereVAppDeleteOp, deletePowerOffDestroy,
                powerOffVApp]
          refine ⟨by rw [hc], fun _ _ => by rw [hc]; decide,
            fun _ => ⟨by rw [hc]; decide, Or.inr rfl⟩,
            fun msg hmsg => nomatch hmsg⟩
        · have hc : (resourceVSphereVAppDeleteOp
              ⟨.ok (), .ok (), n0 + 1, .ok (),
                .fault (.other msg0), dt⟩).calls =
              [.findVAppCall, .detachEntitiesCall, .powerOffCall] := by
            simp [resourceVSphereVAppDeleteOp, deletePowerOffDestroy,
              powerOffVApp]
          have hr : (resourceVSphereVAppDeleteOp
              ⟨.ok (), .ok (), n0 + 1, .ok (),
                .fault (.other msg0), dt⟩).result = .error msg0 := by
            simp [resourceVSphereVAppDeleteOp, deletePowerOffDestroy,
              powerOffVApp]
          refine ⟨by rw [hc]; decide, fun _ _ => by rw [hc]; decide,
            fun hd => by rw [hc] at hd; exact absurd hd (by decide), ?_⟩
          intro msg hmsg
          injection hmsg with h1
          injection h1 with h2
          subst h2
          exact ⟨by rw [hc]; decide, fun _ => hr⟩

theorem resourceVSphereVAppDeleteOp_sequencing_witness :
    RemoteCall.destroyCall ∉ (resourceVSphereVAppDeleteOp envDeleteFatalPO).calls ∧
    (resourceVSphereVAppDeleteOp envDeleteFatalPO).result =
      .error "power off failed" := by
  obtain ⟨-, -, -, h⟩ :=
    resourceVSphereVAppDeleteOp_sequencing envDeleteFatalPO
  obtain ⟨hnd, hres⟩ := h "power off failed" rfl
  exact ⟨hnd, hres (by decide)⟩

/-- C10: when the inventory-path lookup of the container fails, the read
operation clears the stored id and returns success, while the update
and delete operations surface the lookup failure as an error (and
delete does not clear the id). -/
theorem resourceVSphereVAppReadOp_clears_on_lookup_failure
    (renv : ReadEnv) (uenv : UpdateEnv) (denv : DeleteEnv)
    (currentId msg : String) :
    (renv.constructOk = .ok () → renv.findVApp = .error msg →
       resourceVSphereVAppReadOp renv currentId = ("", .ok ())) ∧
    (uenv.constructOk = .ok () → uenv.findVApp = .error msg →
       resourceVSphereVAppUpdateOp uenv = .error msg) ∧
    (denv.constructOk = .ok () → denv.findVApp = .error msg →
       (resourceVSphereVAppDeleteOp denv).result = .error msg ∧
       (resourceVSphereVAppDeleteOp denv).idCleared = false) := by
  refine ⟨fun h1 h2 => ?_, fun h1 h2 => ?_, fun h1 h2 => ?_⟩
  · simp [resourceVSphereVAppReadOp, h1, h2]
  · simp [resourceVSphereVAppUpdateOp, h1, h2]
  · constructor <;> simp [resourceVSphereVAppDeleteOp, h1, h2]

theorem resourceVSphereVAppReadOp_clears_witness :
    resourceVSphereVAppReadOp envReadFindFail "old-id" = ("", .ok ()) ∧
    resourceVSphereVAppUpdateOp envUpdateFindFail = .error "vapp not found" ∧
    (resourceVSphereVAppDeleteOp envDeleteFindFail).result =
      .error "vapp not found" := by
  obtain ⟨h1, h2, h3⟩ := resourceVSphereVAppReadOp_clears_on_lookup_failure
    envReadFindFail envUpdateFindFail envDeleteFindFail "old-id"
    "vapp not found"
  exact ⟨h1 rfl rfl, h2 rfl rfl, (h3 rfl rfl).1⟩

end VSphereVApp
